import Mathlib

/-!
Verification of the nbastats repository (NBA defense-by-position aggregation,
player form tracking, matchup advantage scoring) against its specification.

Modelling conventions, used throughout:
* Python strings are embedded as `List Char` (named `PyStr`); the needed
  `str` methods (`upper`, `lower`, `strip`, `split`, the `in` operator,
  `int(...)` parsing) are defined below by structural recursion so that the
  kernel can evaluate them on concrete inputs.
* Python floats are embedded as exact rationals `ℚ`.  Python `round(x, 3)`
  is embedded as `round3` (round to the nearest multiple of 1/1000,
  half away from zero toward +inf, matching `Int.floor (x*1000 + 1/2)`);
  the tie-breaking detail of binary-float rounding is immaterial to every
  claim below, which only needs monotonicity and exact values off ties.
* Tabular provider data (pandas data frames) is embedded as lists of records
  whose fields carry `Option` for nullable cells.
* The external stats provider (nba_api) and the on-disk JSON cache are
  inputs of the embedded functions: each embedded computation takes the
  rows the Python code would have obtained as an explicit argument.
-/

/-- Python strings, embedded as lists of characters. -/
abbrev PyStr := List Char

/-- Embedding of `str.upper()` (ASCII, as used by the repository data). -/
def pyUpper (s : PyStr) : PyStr := s.map Char.toUpper

/-- Embedding of `str.lower()`. -/
def pyLower (s : PyStr) : PyStr := s.map Char.toLower

/-- Embedding of `str.strip()`: drop whitespace from both ends. -/
def pyStrip (s : PyStr) : PyStr :=
  ((s.dropWhile Char.isWhitespace).reverse.dropWhile Char.isWhitespace).reverse

/-- Embedding of `s.split(sep)[0]` for a one-character separator: the
characters of `s` strictly before the first occurrence of `sep`. -/
def splitHead (sep : Char) (s : PyStr) : PyStr := s.takeWhile (fun c => c ≠ sep)

/-- Bool-valued test that `pat` occurs at the start of `s`. -/
def leadsWith : PyStr → PyStr → Bool
  | [], _ => true
  | _ :: _, [] => false
  | a :: as, b :: bs => a = b && leadsWith as bs

/-- Embedding of the Python substring test `needle in hay`. -/
def pyIn (needle : PyStr) : PyStr → Bool
  | [] => needle.isEmpty
  | c :: rest => leadsWith needle (c :: rest) || pyIn needle rest

/-- Lexicographic comparison of strings by character code, the order Python
`sorted` uses on `str`; Bool-valued for use with `List.mergeSort`. -/
def lexLe : PyStr → PyStr → Bool
  | [], _ => true
  | _ :: _, [] => false
  | a :: as, b :: bs =>
    if a.toNat < b.toNat then true
    else if b.toNat < a.toNat then false
    else lexLe as bs

/-- Value of a decimal digit character, `none` on a non-digit. -/
def digitVal (c : Char) : Option ℕ :=
  if c.isDigit then some (c.toNat - '0'.toNat) else none

/-- Accumulator pass over a digit string. -/
def digitsValAux : ℕ → PyStr → Option ℕ
  | acc, [] => some acc
  | acc, c :: rest =>
    match digitVal c with
    | none => none
    | some d => digitsValAux (acc * 10 + d) rest

/-- Digit-string to number; `none` when a non-digit appears or the string is
empty. -/
def digitsVal : PyStr → Option ℕ
  | [] => none
  | l => digitsValAux 0 l

/-- Embedding of Python `int(s)` on strings: optional surrounding whitespace,
an optional sign, then decimal digits; `none` models a raised `ValueError`. -/
def pyToInt (s : PyStr) : Option Int :=
  match pyStrip s with
  | '-' :: rest => (digitsVal rest).map (fun n => -(n : Int))
  | '+' :: rest => (digitsVal rest).map (fun n => (n : Int))
  | rest => (digitsVal rest).map (fun n => (n : Int))

/-- Embedding of Python `round(x, 3)` on the exact rational model of floats:
round to the nearest multiple of 1/1000. -/
def round3 (x : ℚ) : ℚ := ((⌊x * 1000 + 1 / 2⌋ : ℤ) : ℚ) / 1000

/-- Embedding of Python `round(x, 1)` (used for `poss_agg`). -/
def round1 (x : ℚ) : ℚ := ((⌊x * 10 + 1 / 2⌋ : ℤ) : ℚ) / 10

/-- Embedding of Python `round(x, 2)` (used for the rounded total sums). -/
def round2 (x : ℚ) : ℚ := ((⌊x * 100 + 1 / 2⌋ : ℤ) : ℚ) / 100

theorem round3_mono {a b : ℚ} (h : a ≤ b) : round3 a ≤ round3 b := by
  unfold round3
  have hf : (⌊a * 1000 + 1 / 2⌋ : ℤ) ≤ ⌊b * 1000 + 1 / 2⌋ := by
    apply Int.floor_le_floor; nlinarith
  have hf' : ((⌊a * 1000 + 1 / 2⌋ : ℤ) : ℚ) ≤ ((⌊b * 1000 + 1 / 2⌋ : ℤ) : ℚ) := by
    exact_mod_cast hf
  linarith

theorem round3_zero : round3 0 = 0 := by norm_num [round3]

/-! ## Role helpers (src/teamdefensestatsperrole.py, lines 159-202) -/

/-- Position buckets; the source represents them as the strings
"G", "F", "C", "OTHER". -/
inductive Bucket
  | G
  | F
  | C
  | OTHER
deriving DecidableEq, Repr

/-- Alias table applied by `normalize_first_token`
(src/teamdefensestatsperrole.py, lines 166-170). -/
def roleAlias (t : PyStr) : PyStr :=
  if t = "GUARD".toList then "G".toList
  else if t = "GUA".toList then "G".toList
  else if t = "W".toList then "F".toList
  else if t = "WING".toList then "F".toList
  else if t = "FWD".toList then "F".toList
  else if t = "FORWARD".toList then "F".toList
  else if t = "CENTER".toList then "C".toList
  else if t = "CTR".toList then "C".toList
  else if t = "BIG".toList then "C".toList
  else if t = "GF".toList then "G".toList
  else if t = "FG".toList then "F".toList
  else t

/-- Embedding of `normalize_first_token`
(src/teamdefensestatsperrole.py, lines 159-171): upper-case and strip,
return "UNK" on the empty string, otherwise take the token before the first
"-", "/", ",", " " separator and apply the alias table. -/
def normalize_first_token (pos : PyStr) : PyStr :=
  let raw := pyStrip (pyUpper pos)
  if raw = [] then "UNK".toList
  else
    let first := splitHead '-' raw
    let first := splitHead ' ' (splitHead ',' (splitHead '/' first))
    roleAlias first

/-- Embedding of `to_bucket_from_tokens`
(src/teamdefensestatsperrole.py, lines 174-182). -/
def to_bucket_from_tokens (token : PyStr) : Bucket :=
  if token = "PG".toList ∨ token = "SG".toList ∨ token = "G".toList then .G
  else if token = "SF".toList ∨ token = "PF".toList ∨ token = "F".toList then .F
  else if token = "C".toList then .C
  else .OTHER

/-- Embedding of `choose_bucket`
(src/teamdefensestatsperrole.py, lines 185-202); `pid` is accepted and
ignored exactly as in the source.  Any `role_mode` other than "start" or
"roster" falls through to the "either" branch, as in the source. -/
def choose_bucket (_pid : Int) (start_pos roster_pos : PyStr) (role_mode : PyStr) : Bucket :=
  let start_tok := normalize_first_token start_pos
  let roster_tok := normalize_first_token roster_pos
  if role_mode = "start".toList then to_bucket_from_tokens start_tok
  else if role_mode = "roster".toList then to_bucket_from_tokens roster_tok
  else
    let primary :=
      if ¬ (start_tok = [] ∨ start_tok = "UNK".toList) then start_tok else roster_tok
    to_bucket_from_tokens primary

/-! ## Minutes parsing (src/teamdefensestatsperrole.py, lines 308-318) -/

/-- Shape of the raw `MIN` cell of a boxscore row.  `null` is a missing or
NaN cell, `mmss` a "MM:SS" string, `num` a plain numeric value, `garbage`
any cell whose string form `parse_min_to_float` fails to parse. -/
inductive MinField
  | null
  | mmss (mm ss : ℕ)
  | num (q : ℚ)
  | garbage
deriving DecidableEq

/-- Embedding of `parse_min_to_float`
(src/teamdefensestatsperrole.py, lines 308-318): `None` on a missing cell or
a parse failure, `mm + ss/60` on a "MM:SS" string, the numeric value
otherwise. -/
def parse_min_to_float : MinField → Option ℚ
  | .null => none
  | .mmss mm ss => some ((mm : ℚ) + (ss : ℚ) / 60)
  | .num q => some q
  | .garbage => none

/-! ## Per-game defense aggregation
(src/teamdefensestatsperrole.py, lines 322-494) -/

/-- One player row of a traditional boxscore, as consumed by
`compute_defense_by_position_boxscore_per_game`.  `team_abbr` models the
`TEAM_ABBREVIATION` cell after the `or ""` default, `player_id` a nullable
`PLAYER_ID` (a failing `int(...)` conversion also maps to `none`),
`pts`/`reb`/`ast` nullable stat cells (`_flt` maps `none` to 0), and
`start_pos` the `START_POSITION` cell after the `or ""` default. -/
structure PlayerRow where
  team_abbr : PyStr
  player_id : Option Int
  minutes : MinField
  pts : Option ℚ
  reb : Option ℚ
  ast : Option ℚ
  start_pos : PyStr
deriving DecidableEq

/-- Embedding of the local `_flt` helper
(src/teamdefensestatsperrole.py, lines 420-424). -/
def fltQ (x : Option ℚ) : ℚ := x.getD 0

/-- Decision that one opponent-loop iteration `continue`s, i.e. the row is
dropped: the row belongs to the target team, or `exclude_dnp` is set and the
minutes are unparsable or zero, or the player id is missing
(src/teamdefensestatsperrole.py, lines 399-417). -/
def rowSkipped (targ : PyStr) (exclude_dnp : Bool) (r : PlayerRow) : Bool :=
  pyUpper r.team_abbr = targ
    || (exclude_dnp && (match parse_min_to_float r.minutes with
         | none => true
         | some m => m = 0))
    || r.player_id.isNone

/-- Opponent rows of one game surviving the target-team, DNP and player-id
filters. -/
def gameSurvivors (targ : PyStr) (exclude_dnp : Bool) (rows : List PlayerRow) : List PlayerRow :=
  rows.filter (fun r => ¬ rowSkipped targ exclude_dnp r)

/-- Bucket assigned to a surviving row: `choose_bucket` on the rows start
position and the roster position from `player_pos_map.get(pid, "UNK")`
(src/teamdefensestatsperrole.py, lines 429-431).  `posMap` is the
player-to-roster-position map built from the provider rosters. -/
def rowBucket (role_mode : PyStr) (posMap : Int → Option PyStr) (r : PlayerRow) : Bucket :=
  let pid := r.player_id.getD 0
  let roster_pos := (posMap pid).getD ("UNK".toList)
  choose_bucket pid r.start_pos roster_pos role_mode

/-- Per-game, per-bucket subtotal of one stat over the surviving rows,
modelling the `per_game_bucket` defaultdict accumulation
(src/teamdefensestatsperrole.py, lines 396, 433-435). -/
def bucketStat (stat : PlayerRow → Option ℚ) (role_mode : PyStr)
    (posMap : Int → Option PyStr) (survivors : List PlayerRow) (b : Bucket) : ℚ :=
  ((survivors.filter (fun r => rowBucket role_mode posMap r = b)).map
    (fun r => fltQ (stat r))).sum

/-- A bucket is a key of the `per_game_bucket` dict exactly when some
surviving row was classified into it. -/
def bucketTouched (role_mode : PyStr) (posMap : Int → Option PyStr)
    (survivors : List PlayerRow) (b : Bucket) : Bool :=
  survivors.any (fun r => rowBucket role_mode posMap r = b)

/-- Running totals of the `totals` defaultdict for one bucket
(src/teamdefensestatsperrole.py, line 354). -/
structure BucketTotal where
  pts_sum : ℚ
  reb_sum : ℚ
  ast_sum : ℚ
  games_with_bucket : ℕ
deriving DecidableEq

/-- Zero entry a fresh defaultdict key starts from. -/
def BucketTotal.zero : BucketTotal := ⟨0, 0, 0, 0⟩

/-- Aggregation state of the game loop: the `totals` map and the
`games_scanned` counter (src/teamdefensestatsperrole.py, lines 354-355). -/
structure AggState where
  totals : Bucket → BucketTotal
  games_scanned : ℕ

/-- Initial aggregation state. -/
def initAggState : AggState := ⟨fun _ => .zero, 0⟩

/-- Embedding of one iteration of the game loop
(src/teamdefensestatsperrole.py, lines 361-446) on a game whose boxscore
rows were obtained: accumulate the per-bucket subtotals of the surviving
opponent rows; when no bucket received any contribution (the
`len(per_game_bucket) == 0` test) skip the game, otherwise increment
`games_scanned` and fold every touched bucket into the running totals,
bumping its `games_with_bucket` counter once. -/
def stepGame (targ : PyStr) (exclude_dnp : Bool) (role_mode : PyStr)
    (posMap : Int → Option PyStr) (s : AggState) (rows : List PlayerRow) : AggState :=
  let surv := gameSurvivors targ exclude_dnp rows
  if surv = [] then s
  else
    { games_scanned := s.games_scanned + 1
      totals := fun b =>
        if bucketTouched role_mode posMap surv b then
          { pts_sum := (s.totals b).pts_sum + bucketStat (fun r => r.pts) role_mode posMap surv b
            reb_sum := (s.totals b).reb_sum + bucketStat (fun r => r.reb) role_mode posMap surv b
            ast_sum := (s.totals b).ast_sum + bucketStat (fun r => r.ast) role_mode posMap surv b
            games_with_bucket := (s.totals b).games_with_bucket + 1 }
        else s.totals b }

/-- Embedding of the full game loop of
`compute_defense_by_position_boxscore_per_game` over the games whose
boxscores were obtained (games whose boxscore fetch failed are skipped by
the source before any accumulation and so are simply absent from `games`). -/
def runGames (targ : PyStr) (exclude_dnp : Bool) (role_mode : PyStr)
    (posMap : Int → Option PyStr) (games : List (List PlayerRow)) : AggState :=
  games.foldl (stepGame targ exclude_dnp role_mode posMap) initAggState

/-- Division-then-round of the output stage: `round(sum / n, 3)` guarded by
`n > 0`, else 0.0 (src/teamdefensestatsperrole.py, lines 451-464). -/
def perAvg (sum : ℚ) (n : ℕ) : ℚ := if 0 < n then round3 (sum / n) else 0

/-- Output entry of `result[bucket]`
(src/teamdefensestatsperrole.py, lines 450-478). -/
structure BucketOut where
  total_pts_sum : ℚ
  total_reb_sum : ℚ
  total_ast_sum : ℚ
  games_with_bucket : ℕ
  games_scanned : ℕ
  pts_per_game : ℚ
  reb_per_game : ℚ
  ast_per_game : ℚ
  pts_per_game_when_present : ℚ
  reb_per_game_when_present : ℚ
  ast_per_game_when_present : ℚ

/-- Embedding of the output stage for one bucket of the `totals` dict
(src/teamdefensestatsperrole.py, lines 449-478). -/
def bucketOut (s : AggState) (b : Bucket) : BucketOut :=
  let vals := s.totals b
  { total_pts_sum := round2 vals.pts_sum
    total_reb_sum := round2 vals.reb_sum
    total_ast_sum := round2 vals.ast_sum
    games_with_bucket := vals.games_with_bucket
    games_scanned := s.games_scanned
    pts_per_game := perAvg vals.pts_sum s.games_scanned
    reb_per_game := perAvg vals.reb_sum s.games_scanned
    ast_per_game := perAvg vals.ast_sum s.games_scanned
    pts_per_game_when_present := perAvg vals.pts_sum vals.games_with_bucket
    reb_per_game_when_present := perAvg vals.reb_sum vals.games_with_bucket
    ast_per_game_when_present := perAvg vals.ast_sum vals.games_with_bucket }

/-! ## Team registry (src/sottomediapartita.py, lines 8-45) -/

/-- One entry of the static team table the provider exposes. -/
structure Team where
  id : Int
  full_name : PyStr
  abbreviation : PyStr
deriving DecidableEq

/-- Errors of team-identifier resolution: `missing_name` models the
`ValueError("Nome squadra mancante")` raise, `not_found` the
team-not-found raises. -/
inductive ResolveErr
  | missing_name
  | not_found
deriving DecidableEq, Repr

/-- Insertion into a Python dict modelled as an association list: a later
binding of an existing key overwrites in place, a new key is appended,
preserving insertion order. -/
def pyDictInsert {α β : Type} [DecidableEq α] (d : List (α × β)) (k : α) (v : β) :
    List (α × β) :=
  if d.any (fun p => p.1 = k) then d.map (fun p => if p.1 = k then (k, v) else p)
  else d ++ [(k, v)]

/-- A Python dict built from a sequence of key-value pairs. -/
def pyDict {α β : Type} [DecidableEq α] (pairs : List (α × β)) : List (α × β) :=
  pairs.foldl (fun d p => pyDictInsert d p.1 p.2) []

/-- Embedding of `_TEAM_ID_BY_FULL` (src/sottomediapartita.py, line 10). -/
def team_id_by_full (ts : List Team) : List (PyStr × Int) :=
  pyDict (ts.map (fun t => (pyLower t.full_name, t.id)))

/-- Embedding of `_TEAM_ID_BY_ABBR` (src/sottomediapartita.py, line 11):
only teams with a non-empty abbreviation are keyed. -/
def team_id_by_abbr (ts : List Team) : List (PyStr × Int) :=
  pyDict ((ts.filter (fun t => t.abbreviation ≠ [])).map
    (fun t => (pyLower t.abbreviation, t.id)))

/-- Embedding of `get_team_id` (src/sottomediapartita.py, lines 16-45):
full-name lookup, then abbreviation lookup (both on the lower-cased
stripped identifier), then the substring match accepted only when exactly
one full name contains the identifier, then the raw numeric id, and
otherwise a not-found failure. -/
def get_team_id (ts : List Team) (team_name : PyStr) : Except ResolveErr Int :=
  if team_name = [] then .error .missing_name
  else
    let normalized := pyLower (pyStrip team_name)
    if normalized = [] then .error .missing_name
    else
      match (team_id_by_full ts).lookup normalized with
      | some tid => .ok tid
      | none =>
        match (team_id_by_abbr ts).lookup normalized with
        | some tid => .ok tid
        | none =>
          let matchList :=
            ((team_id_by_full ts).filter (fun p => pyIn normalized p.1)).map (fun p => p.2)
          match matchList with
          | [tid] => .ok tid
          | _ =>
            match pyToInt team_name with
            | some n => if ts.any (fun t => t.id = n) then .ok n else .error .not_found
            | none => .error .not_found

/-! ## Game-id discovery (src/teamdefensestatsperrole.py, lines 214-304) -/

/-- Embedding of the team-identifier resolution block inside
`get_team_game_ids` (src/teamdefensestatsperrole.py, lines 232-251): an
exact (upper-cased) abbreviation match, otherwise the first team whose full
name contains the identifier (case-insensitively); `none` models the
`ValueError("Team ... non trovato")` raise.  The `abbr_to_full` and
`id_to_abbr` dicts of `build_team_maps` only hold teams with a non-empty
abbreviation. -/
def resolve_team_in_games (ts : List Team) (team_abbr : PyStr) : Option Int :=
  let tsA := ts.filter (fun t => t.abbreviation ≠ [])
  let abbr_to_full := pyDict (tsA.map (fun t => (t.abbreviation, t.full_name)))
  let id_to_abbr := pyDict (tsA.map (fun t => (t.id, t.abbreviation)))
  let up := pyUpper team_abbr
  if abbr_to_full.any (fun p => p.1 = up) then
    (id_to_abbr.find? (fun p => p.2 = up)).map (fun p => p.1)
  else
    match abbr_to_full.find? (fun p => pyIn (pyLower team_abbr) (pyLower p.2)) with
    | some pr => (id_to_abbr.find? (fun p => p.2 = pr.1)).map (fun p => p.1)
    | none => none

/-- Outcomes of the three id-discovery strategies of `get_team_game_ids`:
the cached seed ids (empty when the cache is absent or `refresh` is set),
one `TeamGameLog` outcome per requested season type (`none` when every
attempt failed or the frame was empty, so nothing was merged), and the
`LeagueGameFinder` outcome (`none` when it raised). -/
structure GamesFetch where
  cached_ids : List PyStr
  tgl : List (Option (List PyStr))
  lgf : Option (List PyStr)

/-- Embedding of `get_team_game_ids`
(src/teamdefensestatsperrole.py, lines 214-304): resolve the team (raising
when unresolvable), then union the cached ids with every strategy
contribution into the `found_ids` set and return it sorted.  Failed
strategies contribute nothing and raise nothing. -/
def get_team_game_ids (ts : List Team) (team_abbr : PyStr) (fetch : GamesFetch) :
    Except ResolveErr (List PyStr) :=
  match resolve_team_in_games ts team_abbr with
  | none => .error .not_found
  | some _ =>
    let found := fetch.cached_ids ++ (fetch.tgl.map (fun o => o.getD [])).flatten
      ++ (fetch.lgf.getD [])
    .ok (found.dedup.mergeSort lexLe)

/-! ## Rolling last-5 averages (src/sottomediapartita.py, lines 80-118;
src/mediemobili.py, lines 22-24) -/

/-- Embedding of the pandas `Series.shift()` used in `compute_last5_stats`
and in the `*_last5_avg` columns of mediemobili: every value moves one row
down, the first row becomes null, the length is preserved. -/
def shift1 (l : List (Option ℚ)) : List (Option ℚ) := (none :: l).take l.length

/-- Embedding of `rolling(5, min_periods=1).mean()`: entry `i` is the mean
of the non-null values among entries `max(0, i-4) .. i`, or null when that
window holds no value. -/
def rollingMean5 (l : List (Option ℚ)) : List (Option ℚ) :=
  (List.range l.length).map (fun i =>
    let w := ((l.take (i + 1)).drop (i - 4)).filterMap id
    if w = [] then none else some (w.sum / w.length))

/-- Embedding of the `{stat}_last5_avg` column computation
`df[num_col].shift().rolling(5, min_periods=1).mean()`
(src/sottomediapartita.py, line 100; src/mediemobili.py, lines 22-24), on a
date-ascending numeric column. -/
def last5_avg_col (l : List (Option ℚ)) : List (Option ℚ) := rollingMean5 (shift1 l)

/-! ## Per-100-possession output and league baseline
(src/team_defense_possession.py, lines 247-329) -/

/-- Accumulated per-bucket totals of `totals_per_poss` in
`team_defense_pos` (src/team_defense_possession.py, line 105); a bucket no
opponent row ever touched holds the defaultdict zeros. -/
structure PossTot where
  pts : ℚ
  reb : ℚ
  ast : ℚ
  poss : ℚ
deriving DecidableEq

/-- Defaultdict zero entry. -/
def PossTot.zero : PossTot := ⟨0, 0, 0, 0⟩

/-- One value of the `by_position_per100` output dict. -/
structure Per100Row where
  pts_per100 : ℚ
  reb_per100 : ℚ
  ast_per100 : ℚ
  poss_agg : ℚ
deriving DecidableEq

/-- Embedding of the `out_poss` output stage of `team_defense_pos`
(src/team_defense_possession.py, lines 249-272): an entry is emitted for
every one of the four buckets (`some`, modelling dict-key presence), the
zero row when the accumulated possessions are not positive. -/
def out_per100 (tot : Bucket → PossTot) (b : Bucket) : Option Per100Row :=
  some (if (tot b).poss > 0 then
    { pts_per100 := round3 ((tot b).pts / (tot b).poss * 100)
      reb_per100 := round3 ((tot b).reb / (tot b).poss * 100)
      ast_per100 := round3 ((tot b).ast / (tot b).poss * 100)
      poss_agg := round1 (tot b).poss }
  else ⟨0, 0, 0, 0⟩)

/-- Embedding of the sample accumulation of `league_baseline_z`
(src/team_defense_possession.py, lines 293-302): for each team, the bucket
stat value is appended when the bucket is a key of that teams
`by_position_per100` dict; `f` projects the stat. -/
def baseline_samples (f : Per100Row → ℚ) (teams100 : List (Bucket → Option Per100Row))
    (b : Bucket) : List ℚ :=
  teams100.filterMap (fun per100 => (per100 b).map f)

/-- Embedding of the mean/stdev selection of `league_baseline_z`
(src/team_defense_possession.py, lines 307-326) for one bucket and stat,
returning the `(mean, std)` pair: an empty sample list gives mean 0 and
std 1; otherwise the mean is the arithmetic mean, and the standard
deviation is the population stdev for two or more samples and the
substitute 1.0 for fewer.  `pstdev` stands for the `statistics.pstdev`
library call; it is a parameter because its value is irrational in general,
and every claim below depends only on when it is consulted. -/
def baseline_entry (pstdev : List ℚ → ℚ) (v : List ℚ) : ℚ × ℚ :=
  if v.length = 0 then (0, 1)
  else (v.sum / (v.length : ℚ), if v.length > 1 then pstdev v else 1)

/-! ## Matchup advantage scoring (src/server2.py, lines 162-166, 209-223) -/

/-- Epsilon of `_safe_div` and of the `max(season_avg, 1e-6)` guards. -/
def epsQ : ℚ := 1 / 1000000

/-- Embedding of `_safe_div` (src/server2.py, lines 162-163): the
denominator is replaced by epsilon unless its absolute value exceeds
epsilon. -/
def safe_div (a b : ℚ) : ℚ := a / (if |b| > epsQ then b else epsQ)

/-- Embedding of `_clamp` (src/server2.py, lines 165-166). -/
def clampQ (lo hi x : ℚ) : ℚ := max lo (min hi x)

/-- Embedding of the per-stat `delta_form` computation of `stats_adv`
(src/server2.py, lines 216-218):
`_clamp(_safe_div(season_avg - last5, max(season_avg, 1e-6)), -1.0, 1.0)`. -/
def delta_form (season_avg last5_avg : ℚ) : ℚ :=
  clampQ (-1) 1 (safe_div (season_avg - last5_avg) (max season_avg epsQ))

/-- Specification-side formula for `delta_form`
(spec.md §4.10): `clamp((season_avg - rolling5_avg) / max(season_avg, eps),
-1, 1)`, written with a plain division.  Stated separately so that the
refinement of the code formula to the spec formula is a theorem. -/
def delta_form_spec (season_avg last5_avg : ℚ) : ℚ :=
  clampQ (-1) 1 ((season_avg - last5_avg) / max season_avg epsQ)

/-- Embedding of the per-stat advantage score of `stats_adv`
(src/server2.py, lines 221-223): `round(z_stat + delta_form, 3)`. -/
def adv_score (z season_avg last5_avg : ℚ) : ℚ :=
  round3 (z + delta_form season_avg last5_avg)

/-! ## Cache warming (src/server.py, lines 18-41) -/

/-- Key of a warm-build request: the `(season, bool(exclude_dnp))` tuple. -/
structure WarmKey where
  season : PyStr
  exclude_dnp : Bool
deriving DecidableEq

/-- Shared state the warmer acts on: whether the all-teams bulk cache is
ready, the in-memory `_cache_building` set, and a counter of provider
requests performed so far. -/
structure WarmState where
  ready : Bool
  building : Finset WarmKey
  provider_calls : ℕ

/-- Atomic effect of one `_schedule_all_cache_build` call
(src/server.py, lines 22-41): the readiness check, then the
mutex-protected check-and-insert into `_cache_building`.  The returned
Bool reports whether a background build thread was spawned.  The
`_cache_build_lock` mutex makes the check-and-insert section atomic, so a
call is modelled as one atomic step on the shared state; the call itself
performs no provider request and the pre-lock readiness check is a pure
read subsumed by the in-lock one. -/
def schedule_all_cache_build (k : WarmKey) (s : WarmState) : WarmState × Bool :=
  if s.ready then (s, false)
  else if k ∈ s.building then (s, false)
  else ({ s with building := insert k s.building }, true)

/-- Atomic effect of the spawned `_runner` finishing
(src/server.py, lines 34-40): on success the bulk cache became ready, on a
raised exception it may not have; either way the `finally` block removes
the key from `_cache_building`.  `calls` counts the provider requests the
warm pass performed. -/
def runner_finish (k : WarmKey) (success : Bool) (calls : ℕ) (s : WarmState) : WarmState :=
  { ready := s.ready || success
    building := s.building.erase k
    provider_calls := s.provider_calls + calls }

/-- Decidable equality of `Except` results, for evaluating the embedded
fallible functions on concrete inputs. -/
instance exceptDecEq {ε α : Type} [DecidableEq ε] [DecidableEq α] :
    DecidableEq (Except ε α) := fun x y =>
  match x, y with
  | .error u, .error v =>
    if h : u = v then .isTrue (by rw [h]) else .isFalse (fun hh => by cases hh; exact h rfl)
  | .ok u, .ok v =>
    if h : u = v then .isTrue (by rw [h]) else .isFalse (fun hh => by cases hh; exact h rfl)
  | .error _, .ok _ => .isFalse (fun hh => by cases hh)
  | .ok _, .error _ => .isFalse (fun hh => by cases hh)

/-- Small concrete team registry used by witnesses and counterexamples; two
of its full names contain the substring "los angeles". -/
def demoTeams : List Team :=
  [ { id := 1, full_name := "Los Angeles Lakers".toList, abbreviation := "LAL".toList },
    { id := 2, full_name := "Los Angeles Clippers".toList, abbreviation := "LAC".toList },
    { id := 3, full_name := "Boston Celtics".toList, abbreviation := "BOS".toList } ]

/-- Concrete opponent boxscore row classified into bucket G (start position
"G", 30:00 minutes, 10 points), used by witnesses. -/
def demoRowG : PlayerRow :=
  { team_abbr := "BOS".toList, player_id := some 1, minutes := .mmss 30 0,
    pts := some 10, reb := some 4, ast := some 2, start_pos := "G".toList }

/-- Concrete opponent boxscore row classified into bucket F, used by
witnesses. -/
def demoRowF : PlayerRow :=
  { team_abbr := "BOS".toList, player_id := some 2, minutes := .num 28,
    pts := some 8, reb := some 6, ast := some 1, start_pos := "F".toList }

/-- Written from the spec words of the C3 conservation sentence: the
target-team and DNP skips only, without the player-id guard the code also
applies.  Kept separate from `rowSkipped` so that the comparison of the two
row sets is a theorem. -/
def dnpSkipped (targ : PyStr) (exclude_dnp : Bool) (r : PlayerRow) : Bool :=
  pyUpper r.team_abbr = targ
    || (exclude_dnp && (match parse_min_to_float r.minutes with
         | none => true
         | some m => m = 0))

/-- Specification-side row set of the C3 conservation sentence: the
opponent rows of one game that pass the DNP filter. -/
def dnp_opponent_rows (targ : PyStr) (exclude_dnp : Bool) (rows : List PlayerRow) :
    List PlayerRow :=
  rows.filter (fun r => ¬ dnpSkipped targ exclude_dnp r)

/-- Concrete opponent boxscore row that passes the DNP filter (30:00
minutes) but carries no player id, so the accumulation drops it. -/
def demoRowNoPid : PlayerRow :=
  { team_abbr := "BOS".toList, player_id := none, minutes := .mmss 30 0,
    pts := some 10, reb := some 4, ast := some 2, start_pos := "G".toList }

/-! ## Shared helper lemmas -/

/-- With role_mode "either", a start token that is neither empty nor "UNK"
is primary; the roster position is ignored. -/
theorem choose_bucket_either_start (pid : Int) (sp rp : PyStr)
    (h1 : normalize_first_token sp ≠ []) (h2 : normalize_first_token sp ≠ "UNK".toList) :
    choose_bucket pid sp rp ("either".toList)
      = to_bucket_from_tokens (normalize_first_token sp) := by
  unfold choose_bucket
  rw [if_neg (by decide), if_neg (by decide), if_pos (by push_neg; exact ⟨h1, h2⟩)]

/-- With role_mode "either", an empty or "UNK" start token falls back to the
roster position. -/
theorem choose_bucket_either_roster (pid : Int) (sp rp : PyStr)
    (h : normalize_first_token sp = [] ∨ normalize_first_token sp = "UNK".toList) :
    choose_bucket pid sp rp ("either".toList)
      = to_bucket_from_tokens (normalize_first_token rp) := by
  unfold choose_bucket
  rw [if_neg (by decide), if_neg (by decide), if_neg (not_not.mpr h)]

/-! ## Claim C10 -/

/-- C10: with role_mode "either", the roster position is used as fallback
only when the normalized start token is empty or "UNK"; a non-empty but
unrecognized start token (such as "X") is taken as primary and classifies
the player OTHER, even though the roster position alone would classify the
player as G. -/
theorem C10_either_start_token_primary :
    (∀ pid : Int, ∀ sp rp : PyStr, normalize_first_token sp ≠ [] →
        normalize_first_token sp ≠ "UNK".toList →
        choose_bucket pid sp rp ("either".toList)
          = to_bucket_from_tokens (normalize_first_token sp))
    ∧ (∀ pid : Int, ∀ sp rp : PyStr,
        normalize_first_token sp = [] ∨ normalize_first_token sp = "UNK".toList →
        choose_bucket pid sp rp ("either".toList)
          = to_bucket_from_tokens (normalize_first_token rp))
    ∧ (∀ pid : Int, ∀ rp : PyStr,
        choose_bucket pid ("X".toList) rp ("either".toList) = .OTHER)
    ∧ to_bucket_from_tokens (normalize_first_token ("G".toList)) = .G
    ∧ normalize_first_token ("X".toList) ≠ []
    ∧ normalize_first_token ("X".toList) ≠ "UNK".toList := by
  refine ⟨choose_bucket_either_start, choose_bucket_either_roster, ?_, by decide, by decide,
    by decide⟩
  intro pid rp
  exact (choose_bucket_either_start pid _ rp (by decide) (by decide)).trans (by decide)

/-- Witness for C10 at the concrete inputs of the claim: start position "X"
with roster position "G". -/
theorem C10_witness :
    normalize_first_token ("X".toList) ≠ []
    ∧ normalize_first_token ("X".toList) ≠ "UNK".toList
    ∧ choose_bucket 7 ("X".toList) ("G".toList) ("either".toList)
        = to_bucket_from_tokens (normalize_first_token ("X".toList)) :=
  ⟨by decide, by decide, C10_either_start_token_primary.1 7 _ _ (by decide) (by decide)⟩

/-! ## Claim C7 -/

/-- C7: the scorer computes
`delta_form = clamp((season_avg - rolling5_avg) / max(season_avg, eps), -1, 1)`
and `advantage_score = round(z + delta_form, 3)`; at season_avg 20,
rolling5_avg 15 and opponent z 0.5 the score is 0.75; a denominator whose
absolute value is below epsilon is replaced by epsilon. -/
theorem C7_match_advantage_scorer :
    (∀ season_avg last5_avg : ℚ,
        delta_form season_avg last5_avg = delta_form_spec season_avg last5_avg)
    ∧ adv_score (1 / 2) 20 15 = 3 / 4
    ∧ (∀ a b : ℚ, |b| < epsQ → safe_div a b = a / epsQ) := by
  refine ⟨?_, ?_, ?_⟩
  · intro sa l5
    unfold delta_form delta_form_spec safe_div
    congr 2
    by_cases h : |max sa epsQ| > epsQ
    · simp [h]
    · have h1 : epsQ ≤ max sa epsQ := le_max_right _ _
      have h2 : (0 : ℚ) < epsQ := by norm_num [epsQ]
      have h3 : |max sa epsQ| = max sa epsQ := abs_of_pos (lt_of_lt_of_le h2 h1)
      have h4 : max sa epsQ = epsQ := by
        rw [h3] at h
        linarith [not_lt.mp h]
      simp [h, h4]
  · norm_num [adv_score, delta_form, safe_div, clampQ, epsQ, round3, abs, max_def, min_def]
  · intro a b h
    unfold safe_div
    have hn : ¬ |b| > epsQ := by linarith
    simp [hn]

/-- Witness for C7: the epsilon substitution applied at the concrete
denominator 0. -/
theorem C7_witness : |(0 : ℚ)| < epsQ ∧ safe_div 5 0 = 5 / epsQ :=
  ⟨by norm_num [epsQ], C7_match_advantage_scorer.2.2 5 0 (by norm_num [epsQ])⟩

/-! ## Claim C8 -/

/-- C8: ensure_warm never starts a duplicate build: from a not-ready state
with the key absent, the first (atomic) check-and-insert starts a build and
a second concurrent call for the same key starts none; a call made while a
build is in flight starts none and changes nothing; the key is removed from
the building set by the runner regardless of success (the finally cleanup);
and a call made while the bulk cache is ready returns immediately with the
state (and so the provider-call counter) unchanged and no build spawned. -/
theorem C8_cache_warmer_dedup (k : WarmKey) (s : WarmState) :
    (s.ready = true → schedule_all_cache_build k s = (s, false))
    ∧ (s.ready = false → k ∉ s.building →
        (schedule_all_cache_build k s).2 = true
        ∧ (schedule_all_cache_build k (schedule_all_cache_build k s).1).2 = false)
    ∧ (s.ready = false → k ∈ s.building → schedule_all_cache_build k s = (s, false))
    ∧ (∀ success : Bool, ∀ calls : ℕ,
        k ∉ (runner_finish k success calls s).building
        ∧ (runner_finish k success calls s).provider_calls
            = s.provider_calls + calls) := by
  refine ⟨?_, ?_, ?_, ?_⟩
  · intro h
    simp [schedule_all_cache_build, h]
  · intro h hk
    constructor
    · simp [schedule_all_cache_build, h, hk]
    · simp [schedule_all_cache_build, h, hk]
  · intro h hk
    simp [schedule_all_cache_build, h, hk]
  · intro success calls
    exact ⟨Finset.not_mem_erase k s.building, rfl⟩

/-- Witness for C8: from the empty not-ready state, the first call spawns a
build and the second does not. -/
theorem C8_witness :
    ({ ready := false, building := ∅, provider_calls := 0 : WarmState }).ready = false
    ∧ (⟨"2025-26".toList, true⟩ : WarmKey)
        ∉ ({ ready := false, building := ∅, provider_calls := 0 : WarmState }).building
    ∧ ((schedule_all_cache_build ⟨"2025-26".toList, true⟩
          { ready := false, building := ∅, provider_calls := 0 }).2 = true
      ∧ (schedule_all_cache_build ⟨"2025-26".toList, true⟩
          (schedule_all_cache_build ⟨"2025-26".toList, true⟩
            { ready := false, building := ∅, provider_calls := 0 }).1).2 = false) := by
  refine ⟨rfl, by simp, ?_⟩
  exact (C8_cache_warmer_dedup ⟨"2025-26".toList, true⟩
    { ready := false, building := ∅, provider_calls := 0 }).2.1 rfl (by simp)

/-! ## Claim C5 -/

/-- C5 counterexample: a team with no data for bucket G (all per-possession
totals at the defaultdict zeros, so no possession was ever accumulated)
does contribute a sample to the league baseline of bucket G, and the
contributed sample is the zero placeholder 0.0 — `team_defense_pos` emits a
zero-valued entry for every bucket, so the `if b in per100` guard of
`league_baseline_z` never skips. -/
theorem C5_counterexample :
    baseline_samples (fun r => r.pts_per100) [out_per100 (fun _ => PossTot.zero)] Bucket.G
      = [0] := by
  simp only [baseline_samples, List.filterMap_cons, List.filterMap_nil, out_per100,
    PossTot.zero, Option.map_some]
  norm_num

/-- C5 (amended): in `league_baseline_z`, every team contributes exactly one
sample for every bucket and stat — a team with no data for a bucket
contributes a zero placeholder, since `team_defense_pos` emits all four
buckets with zero per-100 values when no possessions were accumulated — and
the standard deviation is substituted with 1.0 exactly when fewer than 2
samples exist for that bucket and stat. -/
theorem C5_league_baseline_samples (touts : List (Bucket → PossTot)) (b : Bucket)
    (f : Per100Row → ℚ) :
    (baseline_samples f (touts.map (fun t => out_per100 t)) b).length = touts.length
    ∧ (∀ pstdev : List ℚ → ℚ, ∀ v : List ℚ,
        (v.length < 2 → (baseline_entry pstdev v).2 = 1)
        ∧ (2 ≤ v.length → (baseline_entry pstdev v).2 = pstdev v)) := by
  constructor
  · induction touts with
    | nil => simp [baseline_samples]
    | cons t ts ih =>
      simp only [baseline_samples, List.map_cons, List.filterMap_cons] at ih ⊢
      simp only [out_per100, Option.map_some]
      simpa using ih
  · intro pstdev v
    constructor
    · intro h
      unfold baseline_entry
      by_cases h0 : v.length = 0
      · simp [h0]
      · have h1 : ¬ v.length > 1 := by omega
        simp [h0, h1]
    · intro h
      have h0 : ¬ v.length = 0 := by omega
      have h1 : v.length > 1 := by omega
      simp [baseline_entry, h0, h1]

/-- Witness for C5: one data-free team yields one sample; one sample means
the substitute 1.0; two samples mean the pstdev value. -/
theorem C5_witness :
    (baseline_samples (fun r => r.pts_per100)
        ([fun _ => PossTot.zero].map (fun t => out_per100 t)) Bucket.G).length = 1
    ∧ (baseline_entry (fun _ => 37) [0]).2 = 1
    ∧ (baseline_entry (fun _ => 37) [0, 2]).2 = 37 := by
  have h := C5_league_baseline_samples [fun _ => PossTot.zero] Bucket.G
    (fun r => r.pts_per100)
  exact ⟨by simpa using h.1, (h.2 (fun _ => 37) [0]).1 (by norm_num),
    (h.2 (fun _ => 37) [0, 2]).2 (by norm_num)⟩

/-! ## Claim C9 -/

/-- Full-name lookup branch of `get_team_id`: a (lower-cased, stripped)
identifier that is a key of the full-name table resolves to its id. -/
theorem get_team_id_full (ts : List Team) (name : PyStr) (tid : Int)
    (h0 : name ≠ []) (h1 : pyLower (pyStrip name) ≠ [])
    (h2 : (team_id_by_full ts).lookup (pyLower (pyStrip name)) = some tid) :
    get_team_id ts name = .ok tid := by
  unfold get_team_id
  rw [if_neg h0, if_neg h1, h2]

/-- Abbreviation branch of `get_team_id`. -/
theorem get_team_id_abbr (ts : List Team) (name : PyStr) (tid : Int)
    (h0 : name ≠ []) (h1 : pyLower (pyStrip name) ≠ [])
    (h2 : (team_id_by_full ts).lookup (pyLower (pyStrip name)) = none)
    (h3 : (team_id_by_abbr ts).lookup (pyLower (pyStrip name)) = some tid) :
    get_team_id ts name = .ok tid := by
  unfold get_team_id
  rw [if_neg h0, if_neg h1, h2, h3]

/-- Unique-substring branch of `get_team_id`: accepted only when exactly one
full name contains the identifier. -/
theorem get_team_id_substring (ts : List Team) (name : PyStr) (tid : Int)
    (h0 : name ≠ []) (h1 : pyLower (pyStrip name) ≠ [])
    (h2 : (team_id_by_full ts).lookup (pyLower (pyStrip name)) = none)
    (h3 : (team_id_by_abbr ts).lookup (pyLower (pyStrip name)) = none)
    (h4 : ((team_id_by_full ts).filter (fun p => pyIn (pyLower (pyStrip name)) p.1)).map
      (fun p => p.2) = [tid]) :
    get_team_id ts name = .ok tid := by
  unfold get_team_id
  rw [if_neg h0, if_neg h1, h2, h3, h4]

/-- Numeric-id branch of `get_team_id`. -/
theorem get_team_id_numeric (ts : List Team) (name : PyStr) (n : Int)
    (h0 : name ≠ []) (h1 : pyLower (pyStrip name) ≠ [])
    (h2 : (team_id_by_full ts).lookup (pyLower (pyStrip name)) = none)
    (h3 : (team_id_by_abbr ts).lookup (pyLower (pyStrip name)) = none)
    (h4 : ∀ t : Int, ((team_id_by_full ts).filter
      (fun p => pyIn (pyLower (pyStrip name)) p.1)).map (fun p => p.2) ≠ [t])
    (h5 : pyToInt name = some n) (h6 : ts.any (fun t => t.id = n) = true) :
    get_team_id ts name = .ok n := by
  unfold get_team_id
  rw [if_neg h0, if_neg h1, h2, h3]
  rcases hm : ((team_id_by_full ts).filter (fun p => pyIn (pyLower (pyStrip name)) p.1)).map
      (fun p => p.2) with _ | ⟨a, _ | ⟨c, l⟩⟩
  · rw [h5]; simp [h6]
  · exact absurd hm (h4 a)
  · rw [h5]; simp [h6]

/-- Failure branch of `get_team_id`: zero matches, or several ambiguous
substring matches, with no numeric-id rescue, give the not-found error. -/
theorem get_team_id_not_found (ts : List Team) (name : PyStr)
    (h0 : name ≠ []) (h1 : pyLower (pyStrip name) ≠ [])
    (h2 : (team_id_by_full ts).lookup (pyLower (pyStrip name)) = none)
    (h3 : (team_id_by_abbr ts).lookup (pyLower (pyStrip name)) = none)
    (h4 : ∀ t : Int, ((team_id_by_full ts).filter
      (fun p => pyIn (pyLower (pyStrip name)) p.1)).map (fun p => p.2) ≠ [t])
    (h5 : ∀ n : Int, pyToInt name = some n → ts.any (fun t => t.id = n) = false) :
    get_team_id ts name = .error .not_found := by
  unfold get_team_id
  rw [if_neg h0, if_neg h1, h2, h3]
  rcases hm : ((team_id_by_full ts).filter (fun p => pyIn (pyLower (pyStrip name)) p.1)).map
      (fun p => p.2) with _ | ⟨a, _ | ⟨c, l⟩⟩
  · cases hp : pyToInt name with
    | none => simp [hm, hp]
    | some n => simp [hm, hp, h5 n hp]
  · exact absurd hm (h4 a)
  · cases hp : pyToInt name with
    | none => simp [hm, hp]
    | some n => simp [hm, hp, h5 n hp]

/-- C9 counterexample: the identifier "Los Angeles" is a substring of two
distinct registered full names, so the claim requires a not-found failure;
`get_team_id` does fail, but the team resolution embedded in
`get_team_game_ids` (the other code location the claim covers) resolves it
to the first matching team (the Lakers, id 1) instead of failing. -/
theorem C9_counterexample :
    resolve_team_in_games demoTeams ("Los Angeles".toList) = some 1
    ∧ get_team_id demoTeams ("Los Angeles".toList) = .error .not_found
    ∧ pyIn (pyLower ("Los Angeles".toList)) (pyLower ("Los Angeles Lakers".toList)) = true
    ∧ pyIn (pyLower ("Los Angeles".toList)) (pyLower ("Los Angeles Clippers".toList)) = true :=
  ⟨by decide, by decide, by decide, by decide⟩

/-- C9 (amended): `get_team_id` accepts a full name (case-insensitive), an
abbreviation, a substring of the full name only when exactly one full name
contains it, and a raw numeric id, and fails with a not-found error on zero
matches or multiple ambiguous substring matches; the team resolution inside
`get_team_game_ids`, however, selects the first team whose full name
contains the identifier even when several do, as the ambiguous identifier
"Los Angeles" shows. -/
theorem C9_team_identifier_resolution (ts : List Team) (name : PyStr) :
    (∀ tid : Int, name ≠ [] → pyLower (pyStrip name) ≠ [] →
        (team_id_by_full ts).lookup (pyLower (pyStrip name)) = some tid →
        get_team_id ts name = .ok tid)
    ∧ (∀ tid : Int, name ≠ [] → pyLower (pyStrip name) ≠ [] →
        (team_id_by_full ts).lookup (pyLower (pyStrip name)) = none →
        (team_id_by_abbr ts).lookup (pyLower (pyStrip name)) = some tid →
        get_team_id ts name = .ok tid)
    ∧ (∀ tid : Int, name ≠ [] → pyLower (pyStrip name) ≠ [] →
        (team_id_by_full ts).lookup (pyLower (pyStrip name)) = none →
        (team_id_by_abbr ts).lookup (pyLower (pyStrip name)) = none →
        ((team_id_by_full ts).filter (fun p => pyIn (pyLower (pyStrip name)) p.1)).map
          (fun p => p.2) = [tid] →
        get_team_id ts name = .ok tid)
    ∧ (∀ n : Int, name ≠ [] → pyLower (pyStrip name) ≠ [] →
        (team_id_by_full ts).lookup (pyLower (pyStrip name)) = none →
        (team_id_by_abbr ts).lookup (pyLower (pyStrip name)) = none →
        (∀ t : Int, ((team_id_by_full ts).filter
          (fun p => pyIn (pyLower (pyStrip name)) p.1)).map (fun p => p.2) ≠ [t]) →
        pyToInt name = some n → ts.any (fun t => t.id = n) = true →
        get_team_id ts name = .ok n)
    ∧ (name ≠ [] → pyLower (pyStrip name) ≠ [] →
        (team_id_by_full ts).lookup (pyLower (pyStrip name)) = none →
        (team_id_by_abbr ts).lookup (pyLower (pyStrip name)) = none →
        (∀ t : Int, ((team_id_by_full ts).filter
          (fun p => pyIn (pyLower (pyStrip name)) p.1)).map (fun p => p.2) ≠ [t]) →
        (∀ n : Int, pyToInt name = some n → ts.any (fun t => t.id = n) = false) →
        get_team_id ts name = .error .not_found)
    ∧ resolve_team_in_games demoTeams ("Los Angeles".toList) = some 1
    ∧ get_team_id demoTeams ("Los Angeles".toList) = .error .not_found := by
  refine ⟨?_, ?_, ?_, ?_, ?_, by decide, by decide⟩
  · intro tid h0 h1 h2
    exact get_team_id_full ts name tid h0 h1 h2
  · intro tid h0 h1 h2 h3
    exact get_team_id_abbr ts name tid h0 h1 h2 h3
  · intro tid h0 h1 h2 h3 h4
    exact get_team_id_substring ts name tid h0 h1 h2 h3 h4
  · intro n h0 h1 h2 h3 h4 h5 h6
    exact get_team_id_numeric ts name n h0 h1 h2 h3 h4 h5 h6
  · intro h0 h1 h2 h3 h4 h5
    exact get_team_id_not_found ts name h0 h1 h2 h3 h4 h5

/-- Witness for C9: the case-insensitive full name "boston CELTICS"
resolves through the full-name branch of the amended theorem. -/
theorem C9_witness :
    ("boston CELTICS".toList : PyStr) ≠ []
    ∧ pyLower (pyStrip ("boston CELTICS".toList)) ≠ []
    ∧ (team_id_by_full demoTeams).lookup (pyLower (pyStrip ("boston CELTICS".toList)))
        = some 3
    ∧ get_team_id demoTeams ("boston CELTICS".toList) = .ok 3 :=
  ⟨by decide, by decide, by decide,
    (C9_team_identifier_resolution demoTeams ("boston CELTICS".toList)).1 3
      (by decide) (by decide) (by decide)⟩

/-! ## Claim C4 -/

/-- C4 counterexample: for the resolvable team LAL, with the cache seed
empty, the single requested season type failing (contributing nothing) and
the league-wide game-finder fallback failing as well, `get_team_game_ids`
returns the empty id list without any retrieval error, where the claim
demands a failure. -/
theorem C4_counterexample :
    get_team_game_ids demoTeams ("LAL".toList) ⟨[], [none], none⟩ = .ok [] := by
  unfold get_team_game_ids
  rw [show resolve_team_in_games demoTeams ("LAL".toList) = some 1 from by decide]
  simp

/-- C4 (amended): for a resolvable team, `get_team_game_ids` never fails,
whatever the strategies produce: it returns the deduplicated (sorted) union
of the cached seed ids and of the ids of every strategy that yielded
anything, and this union is empty rather than an error when every strategy
across all requested season types and the fallback produce nothing and the
cache is empty; the only failure is an unresolvable team identifier. -/
theorem C4_game_id_union (ts : List Team) (abbr : PyStr) (fetch : GamesFetch) :
    (∀ tid : Int, resolve_team_in_games ts abbr = some tid →
      ∃ l, get_team_game_ids ts abbr fetch = .ok l ∧ l.Nodup
        ∧ (∀ x, x ∈ l ↔ x ∈ fetch.cached_ids ∨ (∃ o ∈ fetch.tgl, x ∈ o.getD [])
            ∨ x ∈ fetch.lgf.getD []))
    ∧ (resolve_team_in_games ts abbr = none →
        get_team_game_ids ts abbr fetch = .error .not_found) := by
  constructor
  · intro tid h
    refine ⟨_, by unfold get_team_game_ids; rw [h], ?_, ?_⟩
    · exact ((List.mergeSort_perm _ _).nodup_iff).mpr (List.nodup_dedup _)
    · intro x
      rw [List.mem_mergeSort, List.mem_dedup]
      simp only [List.mem_append, List.mem_flatten, List.mem_map]
      constructor
      · rintro ((hx | ⟨l, ⟨o, ho, rfl⟩, hxl⟩) | hx)
        · exact Or.inl hx
        · exact Or.inr (Or.inl ⟨o, ho, hxl⟩)
        · exact Or.inr (Or.inr hx)
      · rintro (hx | ⟨o, ho, hxl⟩ | hx)
        · exact Or.inl (Or.inl hx)
        · exact Or.inl (Or.inr ⟨o.getD [], ⟨o, ho, rfl⟩, hxl⟩)
        · exact Or.inr hx
  · intro h
    unfold get_team_game_ids
    rw [h]

/-- Witness for C4: one strategy yields ids, the others fail; the result is
their deduplicated union, without error. -/
theorem C4_witness :
    resolve_team_in_games demoTeams ("LAL".toList) = some 1
    ∧ ∃ l, get_team_game_ids demoTeams ("LAL".toList)
          ⟨["0022400001".toList], [some ["0022400002".toList, "0022400001".toList]], none⟩
        = .ok l ∧ l.Nodup
        ∧ (∀ x, x ∈ l ↔ x ∈ [("0022400001".toList : PyStr)]
            ∨ (∃ o ∈ [some ["0022400002".toList, "0022400001".toList]], x ∈ o.getD [])
            ∨ x ∈ (none : Option (List PyStr)).getD []) :=
  ⟨by decide,
    (C4_game_id_union demoTeams ("LAL".toList)
      ⟨["0022400001".toList], [some ["0022400002".toList, "0022400001".toList]], none⟩).1
      1 (by decide)⟩

/-! ## Claim C6 -/

/-- Length preservation of the pandas shift. -/
theorem shift1_length (x : List (Option ℚ)) : (shift1 x).length = x.length := by
  simp [shift1]

/-- Shape of the shifted column on a non-empty input: a null head followed
by all but the last original value. -/
theorem shift1_cons (x : List (Option ℚ)) (hx : x ≠ []) :
    shift1 x = none :: x.take (x.length - 1) := by
  cases x with
  | nil => simp at hx
  | cons a l => simp [shift1, List.take_succ_cons]

/-- Non-null values survive `filterMap id` unchanged. -/
theorem filterMap_id_map_some (w : List ℚ) : List.filterMap id (w.map some) = w := by
  induction w with
  | nil => rfl
  | cons a l ih =>
    show a :: List.filterMap id (l.map some) = a :: l
    rw [ih]

/-- A leading null cell contributes nothing to a window. -/
theorem filterMap_id_none_cons (w : List ℚ) :
    List.filterMap id (none :: w.map some) = w := by
  show List.filterMap id (w.map some) = w
  exact filterMap_id_map_some w

/-- The non-null window of the shifted column at row `i` is exactly the
at-most-5 original values strictly before `i`. -/
theorem window_eq (vals : List ℚ) (i : ℕ) (hi : i < vals.length) :
    (((shift1 (vals.map some)).take (i + 1)).drop (i - 4)).filterMap id
      = (vals.take i).drop (i - 5) := by
  have hne : vals.map some ≠ [] := by
    cases vals
    · simp at hi
    · simp
  rw [shift1_cons _ hne]
  rw [List.take_succ_cons]
  have h1 : ((vals.map some).take ((vals.map some).length - 1)).take i
      = (vals.take i).map some := by
    rw [List.take_take, ← List.map_take]
    congr 1
    rw [List.length_map]
    have : min i (vals.length - 1) = i := by omega
    rw [this]
  rw [h1]
  rcases Nat.lt_or_ge i 5 with h5 | h5
  · have e4 : i - 4 = 0 := by omega
    have e5 : i - 5 = 0 := by omega
    rw [e4, e5, List.drop_zero, List.drop_zero]
    exact filterMap_id_none_cons (vals.take i)
  · have e4 : i - 4 = (i - 5) + 1 := by omega
    rw [e4, List.drop_succ_cons, ← List.map_drop]
    exact filterMap_id_map_some ((vals.take i).drop (i - 5))

/-- Pointwise value of the rolling mean. -/
theorem rollingMean5_getElem (l : List (Option ℚ)) (i : ℕ) (hi : i < l.length) :
    (rollingMean5 l)[i]? =
      some (if ((l.take (i + 1)).drop (i - 4)).filterMap id = [] then none
        else some ((((l.take (i + 1)).drop (i - 4)).filterMap id).sum
          / (((l.take (i + 1)).drop (i - 4)).filterMap id).length)) := by
  unfold rollingMean5
  rw [List.getElem?_map]
  rw [List.getElem?_range hi]
  rfl

/-- C6: on a date-ascending numeric game log, the rolling value at game `i`
is the mean of the window of at most 5 games strictly before `i` (so the
current game never contributes to its own rolling average and there is no
look-ahead), it is defined whenever at least 1 prior game exists, and the
first game has no prior window, so its rolling value is null (reported as
0 downstream). -/
theorem C6_rolling_last5_window (vals : List ℚ) (i : ℕ) (hi : i < vals.length) :
    (last5_avg_col (vals.map some))[i]? =
      some (if (vals.take i).drop (i - 5) = [] then none
            else some (((vals.take i).drop (i - 5)).sum
              / (((vals.take i).drop (i - 5)).length : ℚ)))
    ∧ ((vals.take i).drop (i - 5)).length ≤ 5
    ∧ ((vals.take i).drop (i - 5)).length ≤ i
    ∧ (i = 0 → (last5_avg_col (vals.map some))[i]? = some none)
    ∧ (1 ≤ i → (vals.take i).drop (i - 5) ≠ []) := by
  have hlen : i < (shift1 (vals.map some)).length := by
    rw [shift1_length, List.length_map]; exact hi
  have hmain : (last5_avg_col (vals.map some))[i]? =
      some (if (vals.take i).drop (i - 5) = [] then none
            else some (((vals.take i).drop (i - 5)).sum
              / (((vals.take i).drop (i - 5)).length : ℚ))) := by
    unfold last5_avg_col
    rw [rollingMean5_getElem _ i hlen, window_eq vals i hi]
  have hwl : ((vals.take i).drop (i - 5)).length = min i vals.length - (i - 5) := by
    rw [List.length_drop, List.length_take]
  refine ⟨hmain, ?_, ?_, ?_, ?_⟩
  · omega
  · omega
  · intro h0
    rw [hmain, h0]
    simp
  · intro h1
    have hne : ((vals.take i).drop (i - 5)).length ≠ 0 := by omega
    exact fun he => hne (by rw [he]; rfl)

/-- Witness for C6 on the concrete log [10, 20, 30]: the rolling value of
game 2 is the mean 15 of the two prior games, and the rolling value of the
first game is null. -/
theorem C6_witness :
    (last5_avg_col (([10, 20, 30] : List ℚ).map some))[2]? = some (some 15)
    ∧ (last5_avg_col (([10, 20, 30] : List ℚ).map some))[0]? = some none := by
  have h := C6_rolling_last5_window [(10 : ℚ), 20, 30] 2 (by norm_num)
  have h0 := C6_rolling_last5_window [(10 : ℚ), 20, 30] 0 (by norm_num)
  constructor
  · rw [h.1]
    norm_num
    intro hh
    simp at hh
  · exact h0.2.2.2.1 rfl

/-! ## Claims C1, C2, C3 -/

/-- One game preserves the aggregation invariant: every bucket has
`games_with_bucket ≤ games_scanned`, and an untouched bucket has zero
sums. -/
theorem stepGame_invariant (targ : PyStr) (ednp : Bool) (rm : PyStr)
    (posMap : Int → Option PyStr) (s : AggState) (rows : List PlayerRow)
    (h : ∀ b, (s.totals b).games_with_bucket ≤ s.games_scanned
      ∧ ((s.totals b).games_with_bucket = 0 → (s.totals b).pts_sum = 0
          ∧ (s.totals b).reb_sum = 0 ∧ (s.totals b).ast_sum = 0)) :
    ∀ b, ((stepGame targ ednp rm posMap s rows).totals b).games_with_bucket
        ≤ (stepGame targ ednp rm posMap s rows).games_scanned
      ∧ (((stepGame targ ednp rm posMap s rows).totals b).games_with_bucket = 0 →
          ((stepGame targ ednp rm posMap s rows).totals b).pts_sum = 0
          ∧ ((stepGame targ ednp rm posMap s rows).totals b).reb_sum = 0
          ∧ ((stepGame targ ednp rm posMap s rows).totals b).ast_sum = 0) := by
  intro b
  unfold stepGame
  by_cases hs : gameSurvivors targ ednp rows = []
  · simp only [hs, if_pos]
    exact h b
  · simp only [hs, ite_false]
    by_cases ht : bucketTouched rm posMap (gameSurvivors targ ednp rows) b
    · simp only [ht, ite_true]
      constructor
      · exact Nat.succ_le_succ (h b).1
      · intro hz
        simp at hz
    · simp only [ht, ite_false]
      constructor
      · exact Nat.le_succ_of_le (h b).1
      · exact (h b).2

/-- The aggregation invariant holds after any sequence of games. -/
theorem runGames_invariant (targ : PyStr) (ednp : Bool) (rm : PyStr)
    (posMap : Int → Option PyStr) (games : List (List PlayerRow)) :
    ∀ b, ((runGames targ ednp rm posMap games).totals b).games_with_bucket
        ≤ (runGames targ ednp rm posMap games).games_scanned
      ∧ (((runGames targ ednp rm posMap games).totals b).games_with_bucket = 0 →
          ((runGames targ ednp rm posMap games).totals b).pts_sum = 0
          ∧ ((runGames targ ednp rm posMap games).totals b).reb_sum = 0
          ∧ ((runGames targ ednp rm posMap games).totals b).ast_sum = 0) := by
  unfold runGames
  suffices hgen : ∀ s : AggState,
      (∀ b, (s.totals b).games_with_bucket ≤ s.games_scanned
        ∧ ((s.totals b).games_with_bucket = 0 → (s.totals b).pts_sum = 0
            ∧ (s.totals b).reb_sum = 0 ∧ (s.totals b).ast_sum = 0)) →
      ∀ b, ((games.foldl (stepGame targ ednp rm posMap) s).totals b).games_with_bucket
          ≤ (games.foldl (stepGame targ ednp rm posMap) s).games_scanned
        ∧ (((games.foldl (stepGame targ ednp rm posMap) s).totals b).games_with_bucket = 0 →
            ((games.foldl (stepGame targ ednp rm posMap) s).totals b).pts_sum = 0
            ∧ ((games.foldl (stepGame targ ednp rm posMap) s).totals b).reb_sum = 0
            ∧ ((games.foldl (stepGame targ ednp rm posMap) s).totals b).ast_sum = 0) by
    exact hgen initAggState (by intro b; exact ⟨Nat.le_refl 0, fun _ => ⟨rfl, rfl, rfl⟩⟩)
  induction games with
  | nil => intro s hs; exact hs
  | cons g gs ih =>
    intro s hs
    exact ih _ (stepGame_invariant targ ednp rm posMap s g hs)

/-- Averaging a non-negative total over the full game count never exceeds
averaging it over the games in which the bucket was present. -/
theorem perAvg_le (sum : ℚ) (gwb gs : ℕ) (hle : gwb ≤ gs) (hpos : 0 ≤ sum)
    (hzero : gwb = 0 → sum = 0) : perAvg sum gs ≤ perAvg sum gwb := by
  rcases Nat.eq_zero_or_pos gwb with h0 | h0
  · rw [hzero h0]
    unfold perAvg
    split <;> split <;> simp [round3_zero]
  · have hgs : 0 < gs := lt_of_lt_of_le h0 hle
    unfold perAvg
    rw [if_pos hgs, if_pos h0]
    apply round3_mono
    have hq1 : (0 : ℚ) < (gwb : ℚ) := by exact_mod_cast h0
    have hq2 : (0 : ℚ) < (gs : ℚ) := by exact_mod_cast hgs
    rw [div_le_div_iff₀ hq2 hq1]
    have hc : (gwb : ℚ) ≤ (gs : ℚ) := by exact_mod_cast hle
    exact mul_le_mul_of_nonneg_left hc hpos

/-- C1: in every aggregate `compute_defense_by_position_boxscore_per_game`
produces, every bucket satisfies `games_with_bucket ≤ games_scanned`, and
whenever the accumulated sum is non-negative and
`games_with_bucket < games_scanned`, the per-game average is at most the
per-game-when-present average, for each of PTS, REB and AST. -/
theorem C1_defense_aggregate_invariant (targ : PyStr) (ednp : Bool) (rm : PyStr)
    (posMap : Int → Option PyStr) (games : List (List PlayerRow)) (b : Bucket) :
    (((runGames targ ednp rm posMap games).totals b).games_with_bucket
        ≤ (runGames targ ednp rm posMap games).games_scanned)
    ∧ (0 ≤ ((runGames targ ednp rm posMap games).totals b).pts_sum →
        ((runGames targ ednp rm posMap games).totals b).games_with_bucket
            < (runGames targ ednp rm posMap games).games_scanned →
        (bucketOut (runGames targ ednp rm posMap games) b).pts_per_game
          ≤ (bucketOut (runGames targ ednp rm posMap games) b).pts_per_game_when_present)
    ∧ (0 ≤ ((runGames targ ednp rm posMap games).totals b).reb_sum →
        ((runGames targ ednp rm posMap games).totals b).games_with_bucket
            < (runGames targ ednp rm posMap games).games_scanned →
        (bucketOut (runGames targ ednp rm posMap games) b).reb_per_game
          ≤ (bucketOut (runGames targ ednp rm posMap games) b).reb_per_game_when_present)
    ∧ (0 ≤ ((runGames targ ednp rm posMap games).totals b).ast_sum →
        ((runGames targ ednp rm posMap games).totals b).games_with_bucket
            < (runGames targ ednp rm posMap games).games_scanned →
        (bucketOut (runGames targ ednp rm posMap games) b).ast_per_game
          ≤ (bucketOut (runGames targ ednp rm posMap games) b).ast_per_game_when_present) := by
  have hinv := runGames_invariant targ ednp rm posMap games b
  refine ⟨hinv.1, ?_, ?_, ?_⟩
  · intro hpos _
    exact perAvg_le _ _ _ hinv.1 hpos (fun h0 => (hinv.2 h0).1)
  · intro hpos _
    exact perAvg_le _ _ _ hinv.1 hpos (fun h0 => (hinv.2 h0).2.1)
  · intro hpos _
    exact perAvg_le _ _ _ hinv.1 hpos (fun h0 => (hinv.2 h0).2.2)

/-- A per-bucket subtotal of non-negative row stats is non-negative. -/
theorem bucketStat_nonneg (f : PlayerRow → Option ℚ) (rm : PyStr)
    (posMap : Int → Option PyStr) (surv : List PlayerRow) (b : Bucket)
    (h : ∀ r ∈ surv, 0 ≤ fltQ (f r)) : 0 ≤ bucketStat f rm posMap surv b := by
  apply List.sum_nonneg
  intro x hx
  rcases List.mem_map.mp hx with ⟨r, hr, rfl⟩
  exact h r (List.mem_filter.mp hr).1

/-- One game with non-negative point cells keeps every accumulated point
sum non-negative. -/
theorem stepGame_pts_nonneg (targ : PyStr) (ednp : Bool) (rm : PyStr)
    (posMap : Int → Option PyStr) (s : AggState) (rows : List PlayerRow)
    (h : ∀ r ∈ rows, 0 ≤ fltQ r.pts)
    (hs : ∀ b, 0 ≤ (s.totals b).pts_sum) :
    ∀ b, 0 ≤ ((stepGame targ ednp rm posMap s rows).totals b).pts_sum := by
  intro b
  unfold stepGame
  by_cases hsv : gameSurvivors targ ednp rows = []
  · simp only [hsv, if_pos]
    exact hs b
  · simp only [hsv, ite_false]
    by_cases ht : bucketTouched rm posMap (gameSurvivors targ ednp rows) b
    · simp only [ht, ite_true]
      have hb : 0 ≤ bucketStat (fun r => r.pts) rm posMap (gameSurvivors targ ednp rows) b := by
        apply bucketStat_nonneg
        intro r hr
        exact h r (List.mem_filter.mp hr).1
      have := hs b
      linarith
    · simp only [ht, ite_false]
      exact hs b

/-- Any sequence of games with non-negative point cells yields non-negative
accumulated point sums for every bucket. -/
theorem runGames_pts_nonneg (targ : PyStr) (ednp : Bool) (rm : PyStr)
    (posMap : Int → Option PyStr) (games : List (List PlayerRow))
    (h : ∀ g ∈ games, ∀ r ∈ g, 0 ≤ fltQ r.pts) :
    ∀ b, 0 ≤ ((runGames targ ednp rm posMap games).totals b).pts_sum := by
  unfold runGames
  suffices hgen : ∀ s : AggState, (∀ b, 0 ≤ (s.totals b).pts_sum) →
      ∀ b, 0 ≤ ((games.foldl (stepGame targ ednp rm posMap) s).totals b).pts_sum by
    exact hgen initAggState (fun b => le_refl 0)
  induction games with
  | nil => intro s hs; exact hs
  | cons g gs ih =>
    intro s hs
    exact ih (fun gg hgg => h gg (List.mem_cons_of_mem g hgg)) _
      (stepGame_pts_nonneg targ ednp rm posMap s g (h g (List.mem_cons_self g gs)) hs)

/-- Witness for C1 at the concrete two-game input: bucket G is present in
only the first of the two scanned games and its point sum is non-negative,
so the pts conclusion of the invariant applies. -/
theorem C1_witness :
    0 ≤ ((runGames ("LAL".toList) false ("either".toList) (fun _ => none)
        [[demoRowG], [demoRowF]]).totals Bucket.G).pts_sum
    ∧ ((runGames ("LAL".toList) false ("either".toList) (fun _ => none)
        [[demoRowG], [demoRowF]]).totals Bucket.G).games_with_bucket
      < (runGames ("LAL".toList) false ("either".toList) (fun _ => none)
        [[demoRowG], [demoRowF]]).games_scanned
    ∧ (bucketOut (runGames ("LAL".toList) false ("either".toList) (fun _ => none)
        [[demoRowG], [demoRowF]]) Bucket.G).pts_per_game
      ≤ (bucketOut (runGames ("LAL".toList) false ("either".toList) (fun _ => none)
        [[demoRowG], [demoRowF]]) Bucket.G).pts_per_game_when_present := by
  have hpos : 0 ≤ ((runGames ("LAL".toList) false ("either".toList) (fun _ => none)
      [[demoRowG], [demoRowF]]).totals Bucket.G).pts_sum := by
    apply runGames_pts_nonneg
    intro g hg r hr
    rcases List.mem_cons.mp hg with rfl | hg2
    · have hrg : r = demoRowG := by simpa using hr
      subst hrg
      norm_num [demoRowG, fltQ]
    · rcases List.mem_cons.mp hg2 with rfl | hg3
      · have hrf : r = demoRowF := by simpa using hr
        subst hrf
        norm_num [demoRowF, fltQ]
      · simp at hg3
  have hlt : ((runGames ("LAL".toList) false ("either".toList) (fun _ => none)
      [[demoRowG], [demoRowF]]).totals Bucket.G).games_with_bucket
      < (runGames ("LAL".toList) false ("either".toList) (fun _ => none)
        [[demoRowG], [demoRowF]]).games_scanned := by decide
  exact ⟨hpos, hlt,
    (C1_defense_aggregate_invariant ("LAL".toList) false ("either".toList) (fun _ => none)
      [[demoRowG], [demoRowF]] Bucket.G).2.1 hpos hlt⟩

/-- C2: a processed game in which no bucket received any contribution
(equivalently, no opponent row survived the filters) is skipped entirely,
leaving the state (and so `games_scanned`) unchanged; otherwise
`games_scanned` grows by exactly 1, every touched bucket has its per-game
subtotal added to the running sums and its `games_with_bucket` counter
incremented by exactly 1 (once per game, however many players contributed),
and untouched buckets are unchanged. -/
theorem C2_per_game_commit (targ : PyStr) (ednp : Bool) (rm : PyStr)
    (posMap : Int → Option PyStr) (s : AggState) (rows : List PlayerRow) :
    ((∀ b, bucketTouched rm posMap (gameSurvivors targ ednp rows) b = false)
      ↔ gameSurvivors targ ednp rows = [])
    ∧ (gameSurvivors targ ednp rows = [] → stepGame targ ednp rm posMap s rows = s)
    ∧ (gameSurvivors targ ednp rows ≠ [] →
        (stepGame targ ednp rm posMap s rows).games_scanned = s.games_scanned + 1
        ∧ ∀ b, (bucketTouched rm posMap (gameSurvivors targ ednp rows) b = true →
              (stepGame targ ednp rm posMap s rows).totals b =
                { pts_sum := (s.totals b).pts_sum
                    + bucketStat (fun r => r.pts) rm posMap (gameSurvivors targ ednp rows) b
                  reb_sum := (s.totals b).reb_sum
                    + bucketStat (fun r => r.reb) rm posMap (gameSurvivors targ ednp rows) b
                  ast_sum := (s.totals b).ast_sum
                    + bucketStat (fun r => r.ast) rm posMap (gameSurvivors targ ednp rows) b
                  games_with_bucket := (s.totals b).games_with_bucket + 1 })
           ∧ (bucketTouched rm posMap (gameSurvivors targ ednp rows) b = false →
              (stepGame targ ednp rm posMap s rows).totals b = s.totals b)) := by
  refine ⟨?_, ?_, ?_⟩
  · constructor
    · intro h
      cases hsv : gameSurvivors targ ednp rows with
      | nil => rfl
      | cons r t =>
        have hb := h (rowBucket rm posMap r)
        rw [hsv] at hb
        simp [bucketTouched] at hb
    · intro h b
      rw [h]
      simp [bucketTouched]
  · intro h
    unfold stepGame
    simp only [h, if_pos]
  · intro h
    unfold stepGame
    rw [if_neg h]
    refine ⟨rfl, ?_⟩
    intro b
    constructor
    · intro ht
      simp only [ht]
      simp
    · intro ht
      simp only [ht]
      simp

/-- Witness for C2: one surviving opponent row makes the game count, and
`games_scanned` grows by exactly 1. -/
theorem C2_witness :
    gameSurvivors ("LAL".toList) false [demoRowG] ≠ []
    ∧ (stepGame ("LAL".toList) false ("either".toList) (fun _ => none) initAggState
        [demoRowG]).games_scanned = initAggState.games_scanned + 1 := by
  have hne : gameSurvivors ("LAL".toList) false [demoRowG] ≠ [] := by decide
  exact ⟨hne, ((C2_per_game_commit ("LAL".toList) false ("either".toList) (fun _ => none)
    initAggState [demoRowG]).2.2 hne).1⟩

/-- Each surviving row lands in exactly one bucket, so per-game bucket
subtotals sum to the per-game total of the stat. -/
theorem bucket_partition (f : PlayerRow → Option ℚ) (rm : PyStr)
    (posMap : Int → Option PyStr) (l : List PlayerRow) :
    bucketStat f rm posMap l .G + bucketStat f rm posMap l .F
      + bucketStat f rm posMap l .C + bucketStat f rm posMap l .OTHER
      = (l.map (fun r => fltQ (f r))).sum := by
  induction l with
  | nil => simp [bucketStat]
  | cons r t ih =>
    simp only [bucketStat, List.filter_cons] at ih ⊢
    rcases hb : rowBucket rm posMap r with _ | _ | _ | _ <;>
      simp [hb] <;> linarith [ih]

/-- The rows the accumulation actually sums are the DNP-surviving opponent
rows that additionally carry a player id. -/
theorem survivors_eq_spec (targ : PyStr) (ednp : Bool) (rows : List PlayerRow) :
    gameSurvivors targ ednp rows
      = (dnp_opponent_rows targ ednp rows).filter (fun r => r.player_id.isSome) := by
  unfold gameSurvivors dnp_opponent_rows
  rw [List.filter_filter]
  apply List.filter_congr
  intro r _
  unfold rowSkipped dnpSkipped
  cases hp : r.player_id <;> cases ht : (pyUpper r.team_abbr = targ : Bool) <;>
    cases he : ednp <;> simp [hp, ht, he]

/-- C3 counterexample: an opponent row that passes the DNP filter (30:00
minutes played) but whose `PLAYER_ID` cell is missing is dropped by the
`if pid is None: continue` guard of the accumulation, so every bucket
subtotal of the game is 0 while the sum of PTS over the DNP-surviving
opponent rows is 10 — conservation over exactly the DNP-filtered opponent
rows fails. -/
theorem C3_counterexample :
    bucketStat (fun r => r.pts) ("either".toList) (fun _ => none)
        (gameSurvivors ("LAL".toList) false [demoRowNoPid]) .G
      + bucketStat (fun r => r.pts) ("either".toList) (fun _ => none)
        (gameSurvivors ("LAL".toList) false [demoRowNoPid]) .F
      + bucketStat (fun r => r.pts) ("either".toList) (fun _ => none)
        (gameSurvivors ("LAL".toList) false [demoRowNoPid]) .C
      + bucketStat (fun r => r.pts) ("either".toList) (fun _ => none)
        (gameSurvivors ("LAL".toList) false [demoRowNoPid]) .OTHER = 0
    ∧ ((dnp_opponent_rows ("LAL".toList) false [demoRowNoPid]).map
        (fun r => fltQ r.pts)).sum = 10
    ∧ (0 : ℚ) ≠ 10 := by
  have hs : gameSurvivors ("LAL".toList) false [demoRowNoPid] = [] := by decide
  have hd : dnp_opponent_rows ("LAL".toList) false [demoRowNoPid] = [demoRowNoPid] := by
    decide
  refine ⟨?_, ?_, by norm_num⟩
  · rw [hs]
    simp [bucketStat]
  · rw [hd]
    norm_num [demoRowNoPid, fltQ]

/-- C3 (amended): for every single game, the per-bucket subtotals of PTS
(and REB and AST) summed across the four buckets equal the stat totals over
exactly the opponent rows of the game that pass the DNP filter and carry a
parsable player id (each such row contributes to exactly one bucket); the
accumulated row set is the DNP-surviving opponent rows further filtered by
player-id presence. -/
theorem C3_per_game_conservation (targ : PyStr) (ednp : Bool) (rm : PyStr)
    (posMap : Int → Option PyStr) (rows : List PlayerRow) :
    (gameSurvivors targ ednp rows
      = (dnp_opponent_rows targ ednp rows).filter (fun r => r.player_id.isSome))
    ∧ (bucketStat (fun r => r.pts) rm posMap (gameSurvivors targ ednp rows) .G
      + bucketStat (fun r => r.pts) rm posMap (gameSurvivors targ ednp rows) .F
      + bucketStat (fun r => r.pts) rm posMap (gameSurvivors targ ednp rows) .C
      + bucketStat (fun r => r.pts) rm posMap (gameSurvivors targ ednp rows) .OTHER
      = ((gameSurvivors targ ednp rows).map (fun r => fltQ r.pts)).sum)
    ∧ (bucketStat (fun r => r.reb) rm posMap (gameSurvivors targ ednp rows) .G
      + bucketStat (fun r => r.reb) rm posMap (gameSurvivors targ ednp rows) .F
      + bucketStat (fun r => r.reb) rm posMap (gameSurvivors targ ednp rows) .C
      + bucketStat (fun r => r.reb) rm posMap (gameSurvivors targ ednp rows) .OTHER
      = ((gameSurvivors targ ednp rows).map (fun r => fltQ r.reb)).sum)
    ∧ (bucketStat (fun r => r.ast) rm posMap (gameSurvivors targ ednp rows) .G
      + bucketStat (fun r => r.ast) rm posMap (gameSurvivors targ ednp rows) .F
      + bucketStat (fun r => r.ast) rm posMap (gameSurvivors targ ednp rows) .C
      + bucketStat (fun r => r.ast) rm posMap (gameSurvivors targ ednp rows) .OTHER
      = ((gameSurvivors targ ednp rows).map (fun r => fltQ r.ast)).sum) :=
  ⟨survivors_eq_spec targ ednp rows,
    bucket_partition (fun r => r.pts) rm posMap (gameSurvivors targ ednp rows),
    bucket_partition (fun r => r.reb) rm posMap (gameSurvivors targ ednp rows),
    bucket_partition (fun r => r.ast) rm posMap (gameSurvivors targ ednp rows)⟩
